import Mathlib

/-!
Verification of the request-admission and ephemeral-resource subsystem of the
`pptx-2-images` service (`src/main.py`).

The Python source is shallowly embedded: timestamps (`time.time()` floats) are
modelled as rationals `ℚ`, per-IP dictionaries as total functions out of
`String`, the `ip_blocked` set as a `List String`, and the filesystem touched by
the cleanup helpers as an association list.  Deferred actions started with
`threading.Thread` (the 30-minute unban and the 1-hour static-image eviction)
are modelled by the time at which they fire, constrained only by the
`time.sleep` lower bound.
-/

namespace PptxService

/-- `SUSPICIOUS_PATHS` from `main.py` (lines 37–54), transcribed verbatim.
The Python value is a `set`; order is irrelevant because it is only ever
scanned with a disjunctive loop. -/
def SUSPICIOUS_PATHS : List String :=
  [ "/.env", "/.env.bak", "/.env.save", "/.env.local", "/.env.production",
    "/backend/.env", "/admin/.env", "/api/.env",
    "/config.php", "/config.php.bak", "/config.js", "/aws-config.js", "/aws.config.js",
    "/wp-config.php", "/wp-config.php.old",
    "/.git/config", "/.git/HEAD", "/.git/",
    "/wp-includes/", "/wp-admin/", "/xmlrpc.php",
    "/wp-login.php", "/wp-content/",
    "/robots.txt", "/favicon.ico",
    "/.well-known/", "/.htaccess", "/.htpasswd",
    "/phpinfo.php", "/info.php", "/test.php",
    "/js/twint_ch.js", "/js/lkk_ch.js", "/css/support_parent.css" ]

/-- Python `path.startswith(sp)`: `sp` is a prefix of `path`. -/
def startswith (path sp : String) : Bool :=
  sp.data.isPrefixOf path.data

/-- Python `sp in path`: `sp` occurs as a contiguous substring of `path`. -/
def containsSubstr (path sp : String) : Bool :=
  path.data.tails.any fun suf => sp.data.isPrefixOf suf

/-- The suspicious-path loop of `SecurityMiddleware.dispatch` (lines 115–119)
and, identically, of `SecurityLogFilter.should_log` (lines 142–144):
`path.startswith(suspicious_path) or suspicious_path in path` for some entry. -/
def is_suspicious (path : String) : Bool :=
  SUSPICIOUS_PATHS.any fun sp => startswith path sp || containsSubstr path sp

/-- `RATE_LIMIT_WINDOW = 60` (seconds), line 57. -/
def RATE_LIMIT_WINDOW : ℚ := 60

/-- `RATE_LIMIT_MAX_REQUESTS = 100` (the soft per-window cap), line 58. -/
def RATE_LIMIT_MAX_REQUESTS : Nat := 100

/-- `RATE_LIMIT_STRICT_MAX = 20` (the strict per-window cap), line 59. -/
def RATE_LIMIT_STRICT_MAX : Nat := 20

/-- The `time.sleep(1800)` in the `unblock` thread (line 96); the spec calls
this `BAN_DURATION`. -/
def BAN_DURATION : ℚ := 1800

/-- The `time.sleep(3600)` in `delayed_cleanup` (line 209); the spec calls this
`RETENTION_TTL`. -/
def RETENTION_TTL : ℚ := 3600

/-- The in-memory security state: `ip_request_times` (a `defaultdict(list)`,
so lookups of unseen keys yield `[]`) and `ip_blocked` (a `set`). -/
structure MidState where
  ipRequestTimes : String → List ℚ
  ipBlocked : List String

/-- Dictionary assignment `m[k] = v`. -/
def updateMap (m : String → List ℚ) (k : String) (v : List ℚ) : String → List ℚ :=
  fun q => if q = k then v else m q

/-- The pruning comprehension of lines 85–88:
keep timestamps `t` with `current_time - t < RATE_LIMIT_WINDOW`. -/
def pruneTimes (l : List ℚ) (now : ℚ) : List ℚ :=
  l.filter fun x => decide (now - x < RATE_LIMIT_WINDOW)

/-- The possible terminal dispositions of `SecurityMiddleware.dispatch`:
both 429 responses of the banned check and of the strict threshold are the
spec's HardBlock; the soft-threshold 429 "Please slow down" is SoftLimit; the
suspicious-path 404 is `pathMatch`; `proceed` forwards to `call_next`. -/
inductive Outcome
  | hardBlock
  | softLimit
  | pathMatch
  | proceed
deriving DecidableEq, Repr

/-- `SecurityMiddleware.dispatch` (lines 70–130) for one request from `ip` to
`path` at time `now`.  Returns the disposition, the updated shared state, and
the unban threads started during the call (each recorded as `(ip, start time)`;
the thread removes `ip` from `ip_blocked` after sleeping `BAN_DURATION`).
The pruned list is written back to `ip_request_times` in every branch past the
ban check, exactly as the assignment on line 85 persists in the source. -/
def dispatch (st : MidState) (ip path : String) (now : ℚ) :
    Outcome × MidState × List (String × ℚ) :=
  if ip ∈ st.ipBlocked then
    (Outcome.hardBlock, st, [])
  else if RATE_LIMIT_STRICT_MAX ≤ (pruneTimes (st.ipRequestTimes ip) now).length then
    (Outcome.hardBlock,
      ⟨updateMap st.ipRequestTimes ip (pruneTimes (st.ipRequestTimes ip) now),
        ip :: st.ipBlocked⟩,
      [(ip, now)])
  else if RATE_LIMIT_MAX_REQUESTS ≤ (pruneTimes (st.ipRequestTimes ip) now).length then
    (Outcome.softLimit,
      ⟨updateMap st.ipRequestTimes ip (pruneTimes (st.ipRequestTimes ip) now),
        st.ipBlocked⟩,
      [])
  else if is_suspicious path then
    (Outcome.pathMatch,
      ⟨updateMap st.ipRequestTimes ip (pruneTimes (st.ipRequestTimes ip) now ++ [now]),
        st.ipBlocked⟩,
      [])
  else
    (Outcome.proceed,
      ⟨updateMap st.ipRequestTimes ip (pruneTimes (st.ipRequestTimes ip) now ++ [now]),
        st.ipBlocked⟩,
      [])

/-- `SecurityLogFilter.should_log` (lines 137–151). -/
def should_log (path : String) (statusCode : Nat) : Bool :=
  if statusCode == 404 then
    if is_suspicious path then false else true
  else true

/-- The module-level initial state: empty `ip_request_times`, empty `ip_blocked`. -/
def initState : MidState := ⟨fun _ => [], []⟩

/-- The state after a fresh client has issued requests `0, …, k-1` at times
`t 0, …, t (k-1)` (all to the same `path`). -/
def runN (ip path : String) (t : Nat → ℚ) : Nat → MidState
  | 0 => initState
  | k + 1 => (dispatch (runN ip path t k) ip path (t k)).2.1

/-- The disposition of the `(k+1)`-st request (0-indexed `k`) in such a run. -/
def outcomeN (ip path : String) (t : Nat → ℚ) (k : Nat) : Outcome :=
  (dispatch (runN ip path t k) ip path (t k)).1

/-- Membership of `ip` in `ip_blocked` across one ban episode: the strict-threshold
branch adds `ip` at time `s` (line 93) and the daemon `unblock` thread started at
that moment discards it when it fires at time `u` (lines 95–99).  The
`time.sleep(1800)` in the thread only guarantees `s + BAN_DURATION ≤ u`; the code
performs no expiry comparison of its own on lookup. -/
def bannedAt (s u τ : ℚ) : Bool := decide (s ≤ τ) && decide (τ < u)

/-- The ban expiry the spec attributes to a ban inserted at `s`: `s + BAN_DURATION`.
The code stores no such value; it is the reference point of the spec's claims. -/
def banExpiry (s : ℚ) : ℚ := s + BAN_DURATION

/-- The shared state seen by a request arriving at time `τ` during a ban episode
`(s, u)` of client `ip` whose request-history table is `hist`. -/
def episodeState (ip : String) (hist : String → List ℚ) (s u τ : ℚ) : MidState :=
  ⟨hist, if bannedAt s u τ then [ip] else []⟩

/-- The C2 scenario: `RATE_LIMIT_MAX_REQUESTS` requests spaced evenly, 6/5 time
units apart, so that all of them fall within `2 * RATE_LIMIT_WINDOW`. -/
def evenSpacedTimes (k : Nat) : ℚ := (6 / 5 : ℚ) * k

/-- The spec's characterization of a suspicious path: it equals, is prefixed by,
or contains as a substring some entry of the suspicious set. -/
def isSuspiciousSpec (path : String) : Bool :=
  SUSPICIOUS_PATHS.any fun sp => sp == path || startswith path sp || containsSubstr path sp

/-- A file-system entry: Python's `Path.is_file` / `Path.is_dir` distinction. -/
inductive FsEntry
  | file
  | dir
deriving DecidableEq, Repr

/-- The file system reachable by the cleanup helpers, as an association list from
path to entry kind. -/
abbrev Fs := List (String × FsEntry)

def fsLookup (fs : Fs) (p : String) : Option FsEntry :=
  match fs with
  | [] => none
  | (q, e) :: rest => if q = p then some e else fsLookup rest p

/-- `Path.is_file()`. -/
def fsIsFile (fs : Fs) (p : String) : Bool := fsLookup fs p == some FsEntry.file

/-- `Path.is_dir()`. -/
def fsIsDir (fs : Fs) (p : String) : Bool := fsLookup fs p == some FsEntry.dir

/-- `Path.exists()`. -/
def fsExists (fs : Fs) (p : String) : Bool := (fsLookup fs p).isSome

/-- The effect of a successful `Path.unlink()`. -/
def fsRemove (fs : Fs) (p : String) : Fs :=
  fs.filter fun e => decide (e.1 ≠ p)

/-- The effect of `shutil.rmtree`: remove `p` and everything below it. -/
def fsRemoveTree (fs : Fs) (p : String) : Fs :=
  fs.filter fun e => decide (e.1 ≠ p) && !(startswith e.1 (p ++ "/"))

/-- `Path.unlink(missing_ok=…)`: raises `FileNotFoundError` on a missing file
unless `missing_ok` is set. -/
def unlinkE (fs : Fs) (p : String) (missingOk : Bool) : Except String Fs :=
  if fsExists fs p then Except.ok (fsRemove fs p)
  else if missingOk then Except.ok fs
  else Except.error "FileNotFoundError"

/-- `shutil.rmtree(path, ignore_errors=…)`. -/
def rmtreeE (fs : Fs) (p : String) (ignoreErrors : Bool) : Except String Fs :=
  if fsIsDir fs p then Except.ok (fsRemoveTree fs p)
  else if ignoreErrors then Except.ok fs
  else Except.error "NotADirectoryError"

/-- `cleanup_path` (lines 196–201): `unlink(missing_ok=True)` for a file,
`rmtree(…, ignore_errors=True)` for a directory, nothing otherwise. -/
def cleanup_path (fs : Fs) (p : String) : Except String Fs :=
  if fsIsFile fs p then unlinkE fs p true
  else if fsIsDir fs p then rmtreeE fs p true
  else Except.ok fs

/-- The state `cleanup_path` leaves behind (it never fails, see `C9_theorem`). -/
def cleanupResult (fs : Fs) (p : String) : Fs :=
  if fsIsFile fs p then fsRemove fs p
  else if fsIsDir fs p then fsRemoveTree fs p
  else fs

/-- Python `s.split(c)` on a character list. -/
def splitOnChar (cs : List Char) (c : Char) : List (List Char) :=
  match cs with
  | [] => [[]]
  | a :: rest =>
    if a == c then [] :: splitOnChar rest c
    else
      match splitOnChar rest c with
      | [] => [[a]]
      | s :: ss => (a :: s) :: ss

/-- Python `s.lower()`. -/
def lowerStr (s : String) : String := String.mk (s.data.map Char.toLower)

/-- `image_url.split('/')[-1]` (line 211). -/
def urlFilename (url : String) : String :=
  String.mk ((splitOnChar url.data '/').getLastD [])

/-- The body of `delayed_cleanup` (lines 208–214) once the eviction thread fires:
for each published url, delete the backing file if it still exists. -/
def delayed_cleanup (fs : Fs) (urls : List String) : Except String Fs :=
  match urls with
  | [] => Except.ok fs
  | url :: rest =>
    match (if fsExists fs (urlFilename url) then unlinkE fs (urlFilename url) true
           else Except.ok fs) with
    | Except.ok fs' => delayed_cleanup fs' rest
    | Except.error e => Except.error e

/-- A legal fire time of the eviction thread scheduled at publish time `t0`:
`time.sleep(3600)` (line 209) can only return at `u ≥ t0 + RETENTION_TTL`. -/
def evictionFireOk (t0 u : ℚ) : Prop := t0 + RETENTION_TTL ≤ u

/-- Presence over time of a published artifact whose eviction fires at `u`
(absent manual removal): the file exists from its publication at `t0` until the
thread deletes it at `u`. -/
def publishedFileExistsAt (t0 u τ : ℚ) : Bool := decide (t0 ≤ τ) && decide (τ < u)

/-- Python `Path(filename).suffix`: the dot-suffix of the final path component
(empty when there is no dot, the dot leads the name, or the dot ends it). -/
def pathSuffix (filename : String) : String :=
  let name := (splitOnChar filename.data '/').getLastD []
  match name.reverse.findIdx? (fun c => c == '.') with
  | none => ""
  | some j =>
    let i := name.length - 1 - j
    if 0 < i ∧ i < name.length - 1 then String.mk (name.drop i) else ""

/-- A background task registered with `background_tasks.add_task` during the
conversion endpoint. -/
inductive BgTask
  | cleanupPath (workspace : Nat)
  | cleanupStaticImages (urls : List String)
deriving DecidableEq, Repr

/-- Oracle for one call of `convert_pptx_to_jpeg`: the filename of the upload
(`""` models a missing filename, which Python treats as falsy) and the outcomes
of each fallible step.  `extract_notes_from_pptx` catches all of its own
exceptions, so it contributes data but no failure. -/
structure ConvEnv where
  filename : String
  saveOk : Bool
  notes : List String
  pdfOk : Bool
  jpegFiles : Option (List String)
  copyOk : Bool
  sessionId : String

/-- `f"{i:03d}"`. -/
def pad3 (n : Nat) : String :=
  if n < 10 then "00" ++ toString n
  else if n < 100 then "0" ++ toString n
  else toString n

/-- `f"/static/{session_id}_{i+1:03d}.jpg"` (lines 416, 431). -/
def imageUrl (sessionId : String) (i : Nat) : String :=
  "/static/" ++ sessionId ++ "_" ++ pad3 (i + 1) ++ ".jpg"

/-- The guard that runs before `tempfile.mkdtemp()` (lines 371–376): a workspace,
and with it a release obligation, exists exactly when the upload has a filename
whose lower-cased suffix is `.pptx` or `.ppt`. -/
def workspaceCreated (env : ConvEnv) : Bool :=
  env.filename != "" &&
    (lowerStr (pathSuffix env.filename) == ".pptx" ||
      lowerStr (pathSuffix env.filename) == ".ppt")

/-- `convert_pptx_to_jpeg` (lines 361–461): the exit disposition — HTTP error
`(status, detail)` or success payload `(slide_count, slides)` — together with the
background tasks registered before that exit.  The `cleanup_path` release task is
registered immediately after `tempfile.mkdtemp()` (line 387), before any fallible
step; the eviction task is registered only on the success path (line 445). -/
def convert_pptx_to_jpeg (env : ConvEnv) :
    Except (Nat × String) (Nat × List (Nat × String × String)) × List BgTask :=
  if env.filename == "" then
    (Except.error (400, "No file uploaded."), [])
  else if ¬(lowerStr (pathSuffix env.filename) == ".pptx" ||
      lowerStr (pathSuffix env.filename) == ".ppt") then
    (Except.error (400, "Only PPTX or PPT files are supported."), [])
  else
    let tasks := [BgTask.cleanupPath 0]
    if ¬env.saveOk then
      (Except.error (500, "Failed to save uploaded file"), tasks)
    else if ¬env.pdfOk then
      (Except.error (500, "PPTX to PDF conversion failed"), tasks)
    else
      match env.jpegFiles with
      | none => (Except.error (500, "PDF to JPEG conversion failed"), tasks)
      | some jpegs =>
        if ¬env.copyOk then
          (Except.error (500, "An unexpected error occurred during conversion"), tasks)
        else
          let urls := (List.range jpegs.length).map fun i => imageUrl env.sessionId i
          let slides := (List.zip urls env.notes).enum.map fun p => (p.1 + 1, p.2)
          (Except.ok (jpegs.length, slides), tasks ++ [BgTask.cleanupStaticImages urls])

/-- How many of the registered background tasks are `cleanup_path` release tasks. -/
def cleanupPathTaskCount (ts : List BgTask) : Nat :=
  (ts.filter fun t =>
    match t with
    | BgTask.cleanupPath _ => true
    | _ => false).length

theorem updateMap_self (m : String → List ℚ) (k : String) (v : List ℚ) :
    updateMap m k v k = v := by
  simp [updateMap]

theorem runN_succ (ip path : String) (t : Nat → ℚ) (k : Nat) :
    runN ip path t (k + 1) = (dispatch (runN ip path t k) ip path (t k)).2.1 := rfl

/-- Lines 76–80: a banned client is rejected before the state is touched —
no pruning, no appended timestamp, no scheduled thread. -/
theorem dispatch_blocked (st : MidState) (ip path : String) (now : ℚ)
    (h : ip ∈ st.ipBlocked) :
    dispatch st ip path now = (Outcome.hardBlock, st, []) := by
  simp [dispatch, h]

/-- The strict-threshold branch (lines 91–103). -/
theorem dispatch_strict (st : MidState) (ip path : String) (now : ℚ)
    (hb : ip ∉ st.ipBlocked)
    (hlen : RATE_LIMIT_STRICT_MAX ≤ (pruneTimes (st.ipRequestTimes ip) now).length) :
    dispatch st ip path now =
      (Outcome.hardBlock,
        ⟨updateMap st.ipRequestTimes ip (pruneTimes (st.ipRequestTimes ip) now),
          ip :: st.ipBlocked⟩,
        [(ip, now)]) := by
  simp [dispatch, hb, hlen]

/-- The admitted branch (lines 111–130, non-suspicious path). -/
theorem dispatch_allow (st : MidState) (ip path : String) (now : ℚ)
    (hb : ip ∉ st.ipBlocked)
    (hlen : (pruneTimes (st.ipRequestTimes ip) now).length < RATE_LIMIT_STRICT_MAX)
    (hs : is_suspicious path = false) :
    dispatch st ip path now =
      (Outcome.proceed,
        ⟨updateMap st.ipRequestTimes ip (pruneTimes (st.ipRequestTimes ip) now ++ [now]),
          st.ipBlocked⟩,
        []) := by
  have h2 : ¬ RATE_LIMIT_STRICT_MAX ≤ (pruneTimes (st.ipRequestTimes ip) now).length :=
    Nat.not_le.mpr hlen
  have h3 : ¬ RATE_LIMIT_MAX_REQUESTS ≤ (pruneTimes (st.ipRequestTimes ip) now).length := by
    have : RATE_LIMIT_STRICT_MAX ≤ RATE_LIMIT_MAX_REQUESTS := by decide
    omega
  simp [dispatch, hb, h2, h3, hs]

/-- While the first `RATE_LIMIT_STRICT_MAX` requests of a fresh client all fall
within one window of each other, the history is exactly the list of their
timestamps and the client is not banned. -/
theorem runN_inv (ip path : String) (t : Nat → ℚ)
    (hs : is_suspicious path = false)
    (hw : ∀ j, j ≤ RATE_LIMIT_STRICT_MAX → ∀ i, i ≤ RATE_LIMIT_STRICT_MAX →
      t j - t i < RATE_LIMIT_WINDOW) :
    ∀ k, k ≤ RATE_LIMIT_STRICT_MAX →
      (runN ip path t k).ipRequestTimes ip = (List.range k).map t ∧
      (runN ip path t k).ipBlocked = [] := by
  intro k
  induction k with
  | zero => exact fun _ => ⟨rfl, rfl⟩
  | succ k ih =>
    intro hk
    have hk' : k ≤ RATE_LIMIT_STRICT_MAX := Nat.le_of_succ_le hk
    obtain ⟨hh, hbl⟩ := ih hk'
    have hprune : pruneTimes ((runN ip path t k).ipRequestTimes ip) (t k)
        = (List.range k).map t := by
      rw [hh]
      apply List.filter_eq_self.mpr
      intro a ha
      obtain ⟨i, hi, rfl⟩ := List.mem_map.mp ha
      have hik : i < k := List.mem_range.mp hi
      exact decide_eq_true (hw k hk' i (Nat.le_of_lt (Nat.lt_of_lt_of_le hik hk')))
    have hb : ip ∉ (runN ip path t k).ipBlocked := by
      rw [hbl]; exact List.not_mem_nil ip
    have hlen : (pruneTimes ((runN ip path t k).ipRequestTimes ip) (t k)).length
        < RATE_LIMIT_STRICT_MAX := by
      rw [hprune, List.length_map, List.length_range]
      exact Nat.lt_of_succ_le hk
    show (dispatch (runN ip path t k) ip path (t k)).2.1.ipRequestTimes ip
        = (List.range (k + 1)).map t ∧
      (dispatch (runN ip path t k) ip path (t k)).2.1.ipBlocked = []
    rw [dispatch_allow _ _ _ _ hb hlen hs]
    refine ⟨?_, hbl⟩
    show updateMap _ ip _ ip = _
    rw [updateMap_self, hprune, List.range_succ, List.map_append]
    rfl

/-- The `(RATE_LIMIT_STRICT_MAX+1)`-st request of such a run crosses the strict
threshold: it is hard-blocked, the client is added to `ip_blocked`, and the
unban thread is started. -/
theorem runN_strict (ip path : String) (t : Nat → ℚ)
    (hs : is_suspicious path = false)
    (hw : ∀ j, j ≤ RATE_LIMIT_STRICT_MAX → ∀ i, i ≤ RATE_LIMIT_STRICT_MAX →
      t j - t i < RATE_LIMIT_WINDOW) :
    outcomeN ip path t RATE_LIMIT_STRICT_MAX = Outcome.hardBlock ∧
    ip ∈ (runN ip path t (RATE_LIMIT_STRICT_MAX + 1)).ipBlocked := by
  obtain ⟨hh, hbl⟩ := runN_inv ip path t hs hw RATE_LIMIT_STRICT_MAX (Nat.le_refl _)
  have hprune : pruneTimes
      ((runN ip path t RATE_LIMIT_STRICT_MAX).ipRequestTimes ip)
      (t RATE_LIMIT_STRICT_MAX) = (List.range RATE_LIMIT_STRICT_MAX).map t := by
    rw [hh]
    apply List.filter_eq_self.mpr
    intro a ha
    obtain ⟨i, hi, rfl⟩ := List.mem_map.mp ha
    have hik : i < RATE_LIMIT_STRICT_MAX := List.mem_range.mp hi
    exact decide_eq_true (hw RATE_LIMIT_STRICT_MAX (Nat.le_refl _) i (Nat.le_of_lt hik))
  have hb : ip ∉ (runN ip path t RATE_LIMIT_STRICT_MAX).ipBlocked := by
    rw [hbl]; exact List.not_mem_nil ip
  have hlen : RATE_LIMIT_STRICT_MAX ≤ (pruneTimes
      ((runN ip path t RATE_LIMIT_STRICT_MAX).ipRequestTimes ip)
      (t RATE_LIMIT_STRICT_MAX)).length := by
    rw [hprune, List.length_map, List.length_range]
  have hd := dispatch_strict _ ip path (t RATE_LIMIT_STRICT_MAX) hb hlen
  constructor
  · unfold outcomeN
    rw [hd]
  · rw [runN_succ, hd]
    exact List.mem_cons_self ip _

/-- The earlier requests of such a run are all admitted. -/
theorem runN_allow (ip path : String) (t : Nat → ℚ)
    (hs : is_suspicious path = false)
    (hw : ∀ j, j ≤ RATE_LIMIT_STRICT_MAX → ∀ i, i ≤ RATE_LIMIT_STRICT_MAX →
      t j - t i < RATE_LIMIT_WINDOW)
    (k : Nat) (hk : k < RATE_LIMIT_STRICT_MAX) :
    outcomeN ip path t k = Outcome.proceed := by
  obtain ⟨hh, hbl⟩ := runN_inv ip path t hs hw k (Nat.le_of_lt hk)
  have hb : ip ∉ (runN ip path t k).ipBlocked := by
    rw [hbl]; exact List.not_mem_nil ip
  have hlen : (pruneTimes ((runN ip path t k).ipRequestTimes ip) (t k)).length
      < RATE_LIMIT_STRICT_MAX := by
    calc (pruneTimes ((runN ip path t k).ipRequestTimes ip) (t k)).length
        ≤ ((runN ip path t k).ipRequestTimes ip).length := List.length_filter_le _ _
      _ = k := by rw [hh, List.length_map, List.length_range]
      _ < RATE_LIMIT_STRICT_MAX := hk
  unfold outcomeN
  rw [dispatch_allow _ _ _ _ hb hlen hs]

/-- Once banned, the client stays banned for the rest of a run (the model has no
unban event inside `dispatch`), and every later request is hard-blocked. -/
theorem runN_blocked_step (ip path : String) (t : Nat → ℚ) (m : Nat)
    (h : ip ∈ (runN ip path t m).ipBlocked) :
    outcomeN ip path t m = Outcome.hardBlock ∧
    ip ∈ (runN ip path t (m + 1)).ipBlocked := by
  have hd := dispatch_blocked (runN ip path t m) ip path (t m) h
  constructor
  · unfold outcomeN
    rw [hd]
  · rw [runN_succ, hd]
    exact h

theorem runN_blocked_mono (ip path : String) (t : Nat → ℚ) (k m : Nat) (hkm : k ≤ m)
    (h : ip ∈ (runN ip path t k).ipBlocked) :
    ip ∈ (runN ip path t m).ipBlocked := by
  induction m with
  | zero =>
    have : k = 0 := Nat.le_zero.mp hkm
    exact this ▸ h
  | succ m ih =>
    rcases Nat.lt_or_ge k (m + 1) with hlt | hge
    · exact (runN_blocked_step ip path t m (ih (Nat.lt_succ_iff.mp hlt))).2
    · have : k = m + 1 := Nat.le_antisymm hkm hge
      exact this ▸ h

/-- Claim C1 (corrected): thresholds are evaluated on the pruned history size
*before* the current timestamp is appended, so a fresh client whose requests all
fall within one `RATE_LIMIT_WINDOW` has its first `RATE_LIMIT_STRICT_MAX` (20)
requests admitted, and it is the 21st request that is hard-blocked and inserts
the client into `ip_blocked` — not the 20th, as the claim states. -/
theorem C1_theorem (ip path : String) (t : Nat → ℚ)
    (hs : is_suspicious path = false)
    (hw : ∀ j, j ≤ RATE_LIMIT_STRICT_MAX → ∀ i, i ≤ RATE_LIMIT_STRICT_MAX →
      t j - t i < RATE_LIMIT_WINDOW) :
    (∀ k, k < RATE_LIMIT_STRICT_MAX → outcomeN ip path t k = Outcome.proceed) ∧
    outcomeN ip path t RATE_LIMIT_STRICT_MAX = Outcome.hardBlock ∧
    ip ∈ (runN ip path t (RATE_LIMIT_STRICT_MAX + 1)).ipBlocked :=
  ⟨fun k hk => runN_allow ip path t hs hw k hk,
    (runN_strict ip path t hs hw).1,
    (runN_strict ip path t hs hw).2⟩

/-- Claim C1 counterexample: a fresh client issuing requests at times 0,1,…,19 —
all within one window — has its 20th request (index 19) still admitted, so the
STRICT_MAX-th request does not return HardBlock as claimed. -/
theorem C1_counterexample :
    outcomeN "a" "/" (fun k => (k : ℚ)) 19 = Outcome.proceed ∧
    Outcome.proceed ≠ Outcome.hardBlock := by
  constructor
  · with_unfolding_all decide
  · decide

/-- Claim C1 witness: the corrected statement at the concrete run with times
0,1,…,20 from client "a" on path "/". -/
theorem C1_witness :
    is_suspicious "/" = false ∧
    (∀ j, j ≤ RATE_LIMIT_STRICT_MAX → ∀ i, i ≤ RATE_LIMIT_STRICT_MAX →
      (j : ℚ) - (i : ℚ) < RATE_LIMIT_WINDOW) ∧
    (outcomeN "a" "/" (fun k => (k : ℚ)) RATE_LIMIT_STRICT_MAX = Outcome.hardBlock ∧
      "a" ∈ (runN "a" "/" (fun k => (k : ℚ)) (RATE_LIMIT_STRICT_MAX + 1)).ipBlocked) :=
  ⟨by decide, by with_unfolding_all decide,
    ( C1_theorem "a" "/" (fun k => (k : ℚ)) (by decide)
      (by with_unfolding_all decide)).2⟩

set_option maxRecDepth 10000 in
/-- Claim C2 counterexample: 100 requests spaced evenly 6/5 time units apart (all
of them inside 2×WINDOW = 120, so no window holds more than ~50 of them) are not
all admitted: the 21st request (index 20) crosses the strict threshold and is
hard-blocked. -/
theorem C2_counterexample :
    evenSpacedTimes 99 < 2 * RATE_LIMIT_WINDOW ∧
    outcomeN "a" "/" evenSpacedTimes 20 = Outcome.hardBlock ∧
    Outcome.hardBlock ≠ Outcome.proceed := by
  refine ⟨by with_unfolding_all decide, ?_, by decide⟩
  with_unfolding_all decide

set_option maxRecDepth 10000 in
/-- Claim C2 (corrected): in the claimed scenario — `RATE_LIMIT_MAX_REQUESTS`
(100) requests spaced evenly across 2×WINDOW — the first `RATE_LIMIT_STRICT_MAX`
(20) requests are admitted, but every later one is hard-blocked: the 21st crosses
the strict threshold and bans the client, and the rest arrive during the ban. -/
theorem C2_theorem :
    (∀ k, k < RATE_LIMIT_STRICT_MAX →
      outcomeN "a" "/" evenSpacedTimes k = Outcome.proceed) ∧
    (∀ k, RATE_LIMIT_STRICT_MAX ≤ k → k < RATE_LIMIT_MAX_REQUESTS →
      outcomeN "a" "/" evenSpacedTimes k = Outcome.hardBlock) := by
  have hs : is_suspicious "/" = false := by decide
  have hw : ∀ j, j ≤ RATE_LIMIT_STRICT_MAX → ∀ i, i ≤ RATE_LIMIT_STRICT_MAX →
      evenSpacedTimes j - evenSpacedTimes i < RATE_LIMIT_WINDOW := by
    with_unfolding_all decide
  refine ⟨fun k hk => runN_allow _ _ _ hs hw k hk, ?_⟩
  intro k hk _
  rcases Nat.eq_or_lt_of_le hk with heq | hlt
  · rw [← heq]
    exact (runN_strict _ _ _ hs hw).1
  · have hb : "a" ∈ (runN "a" "/" evenSpacedTimes k).ipBlocked :=
      runN_blocked_mono _ _ _ (RATE_LIMIT_STRICT_MAX + 1) k hlt
        (runN_strict _ _ _ hs hw).2
    exact (runN_blocked_step _ _ _ k hb).1

/-- Claim C2 witness: the corrected statement evaluated at requests 6 and 51 of
the even-spacing run. -/
theorem C2_witness :
    (5 < RATE_LIMIT_STRICT_MAX ∧
      outcomeN "a" "/" evenSpacedTimes 5 = Outcome.proceed) ∧
    (RATE_LIMIT_STRICT_MAX ≤ 50 ∧ 50 < RATE_LIMIT_MAX_REQUESTS ∧
      outcomeN "a" "/" evenSpacedTimes 50 = Outcome.hardBlock) :=
  ⟨⟨by decide, C2_theorem.1 5 (by decide)⟩,
    ⟨by decide, by decide, C2_theorem.2 50 (by decide) (by decide)⟩⟩

/-- Claim C4 counterexample: a ban inserted at `s = 0` may legally have its unban
thread fire at `u = 1805 ≥ 0 + BAN_DURATION`.  A request arriving at exactly
`now = banExpiry 0 = 1800` still finds the client in `ip_blocked` and is
hard-blocked, contradicting the claim that at `now == banExpiry` the client is no
longer considered banned and is evaluated fresh. -/
theorem C4_counterexample :
    ((0 : ℚ) + BAN_DURATION ≤ 1805) ∧
    bannedAt 0 1805 (banExpiry 0) = true ∧
    (dispatch (episodeState "a" (fun _ => []) 0 1805 (banExpiry 0)) "a" "/"
        (banExpiry 0)).1 = Outcome.hardBlock := by
  refine ⟨by with_unfolding_all decide, by with_unfolding_all decide, ?_⟩
  with_unfolding_all decide

/-- Claim C4 (corrected): the client is never unbanned early — for every legal
fire time `u` of the unban thread, a request at any `now` with
`s ≤ now < banExpiry s` is hard-blocked — and once the thread has fired
(`u ≤ now`) the client is out of `ip_blocked` and a request is evaluated fresh
against the rate limits.  The code guarantees no upper bound on `u - banExpiry s`
beyond the scheduler, so a request at exactly `now = banExpiry s` may still be
blocked (see the counterexample). -/
theorem C4_theorem (ip : String) (hist : String → List ℚ) (path : String)
    (s u now : ℚ) (hu : s + BAN_DURATION ≤ u) :
    (s ≤ now → now < banExpiry s →
      (dispatch (episodeState ip hist s u now) ip path now).1 = Outcome.hardBlock) ∧
    (u ≤ now → (episodeState ip hist s u now).ipBlocked = []) ∧
    (u ≤ now →
      (dispatch (episodeState ip (fun _ => []) s u now) ip "/" now).1
        = Outcome.proceed) := by
  refine ⟨?_, ?_, ?_⟩
  · intro h1 h2
    unfold banExpiry at h2
    have h3 : now < u := lt_of_lt_of_le h2 hu
    have hob : bannedAt s u now = true := by simp [bannedAt, h1, h3]
    have hm : ip ∈ (episodeState ip hist s u now).ipBlocked := by
      simp [episodeState, hob]
    rw [dispatch_blocked _ _ _ _ hm]
  · intro h
    have hb : bannedAt s u now = false := by
      simp [bannedAt]
      intro _
      exact h
    simp [episodeState, hb]
  · intro h
    have hb : bannedAt s u now = false := by
      simp [bannedAt]
      intro _
      exact h
    have hm : ip ∉ (episodeState ip (fun _ => []) s u now).ipBlocked := by
      simp [episodeState, hb]
    have hlen : (pruneTimes
        ((episodeState ip (fun _ => []) s u now).ipRequestTimes ip) now).length
        < RATE_LIMIT_STRICT_MAX := by
      simp [episodeState, pruneTimes]
      decide
    rw [dispatch_allow _ _ _ _ hm hlen (by decide)]

/-- Claim C4 witness: the corrected statement with a ban at `s = 0`, an unban
fire at `u = 1800`, a blocked request at `now = 5` and a fresh one at
`now = 2000`. -/
theorem C4_witness :
    ((0 : ℚ) + BAN_DURATION ≤ 1800 ∧ (0 : ℚ) ≤ 5 ∧ (5 : ℚ) < banExpiry 0 ∧
      (dispatch (episodeState "a" (fun _ => []) 0 1800 5) "a" "/" 5).1
        = Outcome.hardBlock) ∧
    ((1800 : ℚ) ≤ 2000 ∧
      (dispatch (episodeState "a" (fun _ => []) 0 1800 2000) "a" "/" 2000).1
        = Outcome.proceed) :=
  ⟨⟨by with_unfolding_all decide, by decide, by with_unfolding_all decide,
      ( C4_theorem "a" (fun _ => []) "/" 0 1800 5 (by with_unfolding_all decide)).1
        (by decide) (by with_unfolding_all decide)⟩,
    ⟨by decide,
      ( C4_theorem "a" (fun _ => []) "/" 0 1800 2000 (by with_unfolding_all decide)).2.2
        (by decide)⟩⟩

/-- Claim C5: a client currently in `ip_blocked` is hard-blocked with the whole
state returned untouched — no pruning of its history, no appended timestamp, no
scheduled thread; and during a ban episode every `now` before the recorded
expiry does see the client in `ip_blocked`, for every legal fire time of the
unban thread. -/
theorem C5_theorem :
    (∀ (st : MidState) (ip path : String) (now : ℚ), ip ∈ st.ipBlocked →
      dispatch st ip path now = (Outcome.hardBlock, st, [])) ∧
    (∀ s u now : ℚ, s + BAN_DURATION ≤ u → s ≤ now → now < banExpiry s →
      bannedAt s u now = true) := by
  refine ⟨fun st ip path now h => dispatch_blocked st ip path now h, ?_⟩
  intro s u now hu h1 h2
  unfold banExpiry at h2
  have h3 : now < u := lt_of_lt_of_le h2 hu
  simp [bannedAt, h1, h3]

/-- Claim C5 witness: a banned client at a concrete state. -/
theorem C5_witness :
    ("a" ∈ (⟨fun _ => [3], ["a"]⟩ : MidState).ipBlocked ∧
      dispatch ⟨fun _ => [3], ["a"]⟩ "a" "/" 7
        = (Outcome.hardBlock, ⟨fun _ => [3], ["a"]⟩, [])) ∧
    ((0 : ℚ) + BAN_DURATION ≤ 1800 ∧ (0 : ℚ) ≤ 5 ∧ (5 : ℚ) < banExpiry 0 ∧
      bannedAt 0 1800 5 = true) :=
  ⟨⟨by decide, C5_theorem.1 _ "a" "/" 7 (by decide)⟩,
    ⟨by with_unfolding_all decide, by decide, by with_unfolding_all decide,
      C5_theorem.2 0 1800 5 (by with_unfolding_all decide) (by decide)
        (by with_unfolding_all decide)⟩⟩

/-- Claim C10: `dispatch` can never return `SoftLimit` — the 429 "Please slow
down" response is unreachable, because the strict check
(`RATE_LIMIT_STRICT_MAX = 20`) is applied first to the same pruned count and
`RATE_LIMIT_STRICT_MAX ≤ RATE_LIMIT_MAX_REQUESTS = 100`. -/
theorem C10_theorem (st : MidState) (ip path : String) (now : ℚ) :
    (dispatch st ip path now).1 ≠ Outcome.softLimit := by
  unfold dispatch
  split
  · simp
  · split
    · simp
    · split
      · rename_i h1 h2
        exact absurd
          (Nat.le_trans (by decide : RATE_LIMIT_STRICT_MAX ≤ RATE_LIMIT_MAX_REQUESTS) h2)
          h1
      · split <;> simp

/-- Claim C10 witness: the unreachability of `SoftLimit` at a concrete call. -/
theorem C10_witness : (dispatch initState "a" "/" 0).1 ≠ Outcome.softLimit :=
  C10_theorem initState "a" "/" 0

theorem isPrefixOf_self (l : List Char) : l.isPrefixOf l = true := by
  induction l with
  | nil => rfl
  | cons a l ih => simp [List.isPrefixOf, ih]

theorem self_mem_tails (l : List Char) : l ∈ l.tails := by
  cases l <;> simp

/-- A prefix match is in particular a substring match, so adding an explicit
equality disjunct and keeping the prefix disjunct changes nothing. -/
theorem matchEntry_eq (path sp : String) :
    (startswith path sp || containsSubstr path sp)
      = (sp == path || startswith path sp || containsSubstr path sp) := by
  cases h : sp == path
  · simp
  · have hps : sp = path := eq_of_beq h
    subst hps
    simp [startswith, isPrefixOf_self]

theorem any_ext {α : Type} (l : List α) (f g : α → Bool) (h : ∀ a, f a = g a) :
    l.any f = l.any g := by
  induction l with
  | nil => rfl
  | cons a l ih => simp [List.any, h a, ih]

/-- Claim C6: the middleware's suspicious-path test agrees everywhere with the
spec's characterization — a path is suspicious iff it equals, is prefixed by, or
contains as a substring some entry of the suspicious set — and classifies the
spec's examples as stated. -/
theorem C6_theorem :
    (∀ path, is_suspicious path = isSuspiciousSpec path) ∧
    is_suspicious "/.env" = true ∧
    is_suspicious "/.env.local" = true ∧
    is_suspicious "/backend/.env" = true ∧
    is_suspicious "/wp-admin/foo" = true ∧
    is_suspicious "/environment.txt" = false :=
  ⟨fun path => any_ext _ _ _ (fun sp => matchEntry_eq path sp),
    by decide, by decide, by decide, by decide, by decide⟩

/-- Claim C6 witness: the agreement instantiated at a concrete path. -/
theorem C6_witness :
    is_suspicious "/wp-admin/foo" = isSuspiciousSpec "/wp-admin/foo" :=
  C6_theorem.1 "/wp-admin/foo"

/-- Claim C7: `should_log` returns `false` exactly when the status code is 404
and the path matches the suspicious set, and returns `true` in every other case;
in particular on the spec's three examples. -/
theorem C7_theorem :
    (∀ path code, should_log path code = false ↔ (code = 404 ∧ is_suspicious path = true)) ∧
    should_log "/.env" 404 = false ∧
    should_log "/missing-real-page" 404 = true ∧
    should_log "/health" 200 = true := by
  refine ⟨?_, by decide, by decide, by decide⟩
  intro path code
  unfold should_log
  by_cases h : code = 404
  · subst h
    cases hs : is_suspicious path <;> simp [hs]
  · have : (code == 404) = false := by
      simp [h]
    simp [this, h]

/-- Claim C7 witness: the characterization instantiated at a concrete pair. -/
theorem C7_witness :
    should_log "/xmlrpc.php" 404 = false ↔
      (404 = 404 ∧ is_suspicious "/xmlrpc.php" = true) :=
  C7_theorem.1 "/xmlrpc.php" 404

theorem fsLookup_filter_none (fs : Fs) (p : String) (pr : String × FsEntry → Bool)
    (h : ∀ e, pr e = true → ¬(e.1 = p)) :
    fsLookup (fs.filter pr) p = none := by
  induction fs with
  | nil => rfl
  | cons e rest ih =>
    rw [List.filter_cons]
    by_cases hp : pr e = true
    · rw [if_pos hp]
      show (if e.1 = p then some e.2 else fsLookup (rest.filter pr) p) = none
      rw [if_neg (h e hp)]
      exact ih
    · rw [if_neg hp]
      exact ih

theorem fsLookup_fsRemove (fs : Fs) (p : String) :
    fsLookup (fsRemove fs p) p = none :=
  fsLookup_filter_none fs p _ (fun _ he => of_decide_eq_true he)

theorem fsLookup_fsRemoveTree (fs : Fs) (p : String) :
    fsLookup (fsRemoveTree fs p) p = none :=
  fsLookup_filter_none fs p _ (fun _ he =>
    of_decide_eq_true ((Bool.and_eq_true _ _).mp he).1)

theorem fsLookup_none_of_neither (fs : Fs) (p : String)
    (hf : ¬fsIsFile fs p = true) (hd : ¬fsIsDir fs p = true) :
    fsLookup fs p = none := by
  cases h : fsLookup fs p with
  | none => rfl
  | some e =>
    cases e with
    | file =>
      refine absurd ?_ hf
      unfold fsIsFile
      rw [h]
      rfl
    | dir =>
      refine absurd ?_ hd
      unfold fsIsDir
      rw [h]
      rfl

theorem cleanup_path_ok (fs : Fs) (p : String) :
    cleanup_path fs p = Except.ok (cleanupResult fs p) := by
  unfold cleanup_path cleanupResult
  by_cases hf : fsIsFile fs p = true
  · rw [if_pos hf, if_pos hf]
    unfold unlinkE
    have hx : fsExists fs p = true := by
      unfold fsIsFile at hf
      unfold fsExists
      rw [eq_of_beq hf]
      rfl
    rw [if_pos hx]
  · rw [if_neg hf, if_neg hf]
    by_cases hd : fsIsDir fs p = true
    · rw [if_pos hd, if_pos hd]
      unfold rmtreeE
      rw [if_pos hd]
    · rw [if_neg hd, if_neg hd]

/-- Claim C9: `cleanup_path` never raises — both deletion calls swallow their
errors — and a second release of the same handle after a completed release finds
neither a file nor a directory there, deletes nothing, and returns the file
system unchanged. -/
theorem C9_theorem (fs : Fs) (p : String) :
    cleanup_path fs p = Except.ok (cleanupResult fs p) ∧
    cleanup_path (cleanupResult fs p) p = Except.ok (cleanupResult fs p) := by
  refine ⟨cleanup_path_ok fs p, ?_⟩
  have hnone : fsLookup (cleanupResult fs p) p = none := by
    unfold cleanupResult
    by_cases hf : fsIsFile fs p = true
    · rw [if_pos hf]
      exact fsLookup_fsRemove fs p
    · rw [if_neg hf]
      by_cases hd : fsIsDir fs p = true
      · rw [if_pos hd]
        exact fsLookup_fsRemoveTree fs p
      · rw [if_neg hd]
        exact fsLookup_none_of_neither fs p hf hd
  have hf2 : ¬fsIsFile (cleanupResult fs p) p = true := by
    unfold fsIsFile
    rw [hnone]
    decide
  have hd2 : ¬fsIsDir (cleanupResult fs p) p = true := by
    unfold fsIsDir
    rw [hnone]
    decide
  unfold cleanup_path
  rw [if_neg hf2, if_neg hd2]

/-- Claim C9 witness: double release of a concrete workspace directory. -/
theorem C9_witness :
    cleanup_path [("/tmp/ws", FsEntry.dir), ("/tmp/ws/a.pptx", FsEntry.file)] "/tmp/ws"
        = Except.ok
          (cleanupResult [("/tmp/ws", FsEntry.dir), ("/tmp/ws/a.pptx", FsEntry.file)] "/tmp/ws") ∧
    cleanup_path
        (cleanupResult [("/tmp/ws", FsEntry.dir), ("/tmp/ws/a.pptx", FsEntry.file)] "/tmp/ws")
        "/tmp/ws"
      = Except.ok
          (cleanupResult [("/tmp/ws", FsEntry.dir), ("/tmp/ws/a.pptx", FsEntry.file)] "/tmp/ws") :=
  C9_theorem _ "/tmp/ws"

theorem delayed_cleanup_isOk (urls : List String) :
    ∀ fs : Fs, (delayed_cleanup fs urls).isOk = true := by
  induction urls with
  | nil => intro fs; rfl
  | cons url rest ih =>
    intro fs
    unfold delayed_cleanup
    by_cases h : fsExists fs (urlFilename url) = true
    · rw [if_pos h]
      have hu : unlinkE fs (urlFilename url) true
          = Except.ok (fsRemove fs (urlFilename url)) := by
        unfold unlinkE
        rw [if_pos h]
      rw [hu]
      exact ih _
    · rw [if_neg h]
      exact ih fs

/-- Claim C8: the eviction thread scheduled at publish time `t0` can only fire at
`u ≥ t0 + RETENTION_TTL`, so a published file still exists at every time before
`t0 + RETENTION_TTL`; a file already gone when the eviction fires is silently
skipped (the file system is returned unchanged); and the eviction body can never
raise, whatever the file system holds. -/
theorem C8_theorem :
    (∀ t0 u τ : ℚ, evictionFireOk t0 u → t0 ≤ τ → τ < t0 + RETENTION_TTL →
      publishedFileExistsAt t0 u τ = true) ∧
    (∀ (fs : Fs) (url : String), fsExists fs (urlFilename url) = false →
      delayed_cleanup fs [url] = Except.ok fs) ∧
    (∀ (fs : Fs) (urls : List String), (delayed_cleanup fs urls).isOk = true) := by
  refine ⟨?_, ?_, fun fs urls => delayed_cleanup_isOk urls fs⟩
  · intro t0 u τ hfire h1 h2
    unfold evictionFireOk at hfire
    have h3 : τ < u := lt_of_lt_of_le h2 hfire
    simp [publishedFileExistsAt, h1, h3]
  · intro fs url h
    unfold delayed_cleanup
    rw [if_neg (by simp [h])]
    rfl

/-- Claim C8 witness: the retention bound at concrete times and the silent no-op
on an already-missing file. -/
theorem C8_witness :
    (evictionFireOk 0 3600 ∧ (0 : ℚ) ≤ 100 ∧ (100 : ℚ) < 0 + RETENTION_TTL ∧
      publishedFileExistsAt 0 3600 100 = true) ∧
    (fsExists [] (urlFilename "/static/ab12cd34_001.jpg") = false ∧
      delayed_cleanup [] ["/static/ab12cd34_001.jpg"] = Except.ok []) :=
  ⟨⟨by show (0 : ℚ) + RETENTION_TTL ≤ 3600; with_unfolding_all decide, by decide,
      by with_unfolding_all decide,
      C8_theorem.1 0 3600 100
        (by show (0 : ℚ) + RETENTION_TTL ≤ 3600; with_unfolding_all decide) (by decide)
        (by with_unfolding_all decide)⟩,
    ⟨rfl, C8_theorem.2.1 [] "/static/ab12cd34_001.jpg" rfl⟩⟩

/-- Claim C3: every call that creates the workspace (i.e. passes the filename and
extension guards, which precede `mkdtemp`) registers exactly one `cleanup_path`
release task, whatever exit path the call then takes — success, save failure,
converter failure, or unexpected fault; a call that never creates a workspace
registers none; and the release itself can never fail (deletion errors are
swallowed). -/
theorem C3_theorem :
    (∀ env : ConvEnv, workspaceCreated env = true →
      cleanupPathTaskCount (convert_pptx_to_jpeg env).2 = 1) ∧
    (∀ env : ConvEnv, workspaceCreated env = false →
      cleanupPathTaskCount (convert_pptx_to_jpeg env).2 = 0) ∧
    (∀ (fs : Fs) (p : String), cleanup_path fs p = Except.ok (cleanupResult fs p)) := by
  refine ⟨?_, ?_, fun fs p => cleanup_path_ok fs p⟩
  · intro env h
    unfold workspaceCreated at h
    have h1 : (env.filename != "") = true := (Bool.and_eq_true _ _).mp h |>.1
    have h2 : (lowerStr (pathSuffix env.filename) == ".pptx" ||
        lowerStr (pathSuffix env.filename) == ".ppt") = true :=
      (Bool.and_eq_true _ _).mp h |>.2
    have h1' : ¬(env.filename == "") = true := by
      simp only [bne] at h1
      cases hq : env.filename == ""
      · decide
      · rw [hq] at h1
        exact absurd h1 (by decide)
    unfold convert_pptx_to_jpeg
    rw [if_neg h1', if_neg (by simp [h2])]
    by_cases hs : env.saveOk = true
    · by_cases hp : env.pdfOk = true
      · cases hj : env.jpegFiles with
        | none => simp [hs, hp, hj, cleanupPathTaskCount]
        | some jpegs =>
          by_cases hc : env.copyOk = true
          · simp [hs, hp, hj, hc, cleanupPathTaskCount]
          · simp [hs, hp, hj, hc, cleanupPathTaskCount]
      · simp [hs, hp, cleanupPathTaskCount]
    · simp [hs, cleanupPathTaskCount]
  · intro env h
    unfold workspaceCreated at h
    unfold convert_pptx_to_jpeg
    cases hq : env.filename == "" with
    | true => rfl
    | false =>
      have h2 : (lowerStr (pathSuffix env.filename) == ".pptx" ||
          lowerStr (pathSuffix env.filename) == ".ppt") = false := by
        simp only [bne] at h
        rw [hq] at h
        simpa using h
      simp [h2, cleanupPathTaskCount]

/-- Claim C3 witness: a created workspace on a failing save path still carries
exactly one release task. -/
theorem C3_witness :
    workspaceCreated ⟨"deck.pptx", false, [], true, none, true, "ab12cd34"⟩ = true ∧
    cleanupPathTaskCount
      (convert_pptx_to_jpeg ⟨"deck.pptx", false, [], true, none, true, "ab12cd34"⟩).2 = 1 :=
  ⟨by decide, C3_theorem.1 _ (by decide)⟩

end PptxService
